import Mathlib

/-!
A shallow embedding of the Telegram bot in src/bot.py: the persisted data
model (users, chat history, file records), the user-management and
chat-history operations, the content analyzers, the web searcher, and the
pending next-step routing of the dispatcher.  External services (the text
and vision generation API, the search provider, the page fetcher, image
decoding and PDF parsing) are modelled as function parameters returning
Option, with none standing for a raised exception or failure.  Timestamps
are Nat; one timestamp is passed per handler invocation, modelling the
current wall-clock time while that event is being handled.
-/

/-- Python string slicing s[:n] : the first n characters (code points). -/
def takeChars (n : Nat) (s : String) : String := String.mk (s.data.take n)

/-- Python str.lower, applied characterwise (as used on ASCII file paths). -/
def lowerString (s : String) : String := String.mk (s.data.map Char.toLower)

/-- Python str.endswith: the final characters of s equal the suffix. -/
def endsWithString (s suff : String) : Bool := List.isSuffixOf suff.data s.data

/-- One document of the users collection, as written by register_user. -/
structure UserRecord where
  chat_id : Int
  username : Option String
  first_name : Option String
  joined_at : Nat
  phone_number : Option String
  total_messages : Nat
  last_active : Nat
deriving Repr, DecidableEq

/-- MongoDB find_one on the users collection with an equality filter on
chat_id: the first matching document, if any. -/
def findUser (users : List UserRecord) (chat : Int) : Option UserRecord :=
  users.find? (fun u => u.chat_id == chat)

/-- MongoDB update_one without upsert: apply f to the first document whose
chat_id matches; a no-op when no document matches. -/
def updateFirst (chat : Int) (f : UserRecord → UserRecord) :
    List UserRecord → List UserRecord
  | [] => []
  | u :: us => if u.chat_id == chat then f u :: us else u :: updateFirst chat f us

/-- UserManager.register_user: update_one with an equality filter on chat_id,
a document of setOnInsert defaults, and upsert enabled.  A matched document
receives no modifications at all; when nothing matches, the default document
(joined_at and last_active at the current time, phone_number null,
total_messages zero) is inserted. -/
def register_user (users : List UserRecord) (chat : Int)
    (username first_name : Option String) (now : Nat) : List UserRecord :=
  match findUser users chat with
  | some _ => users
  | none => users ++ [{ chat_id := chat, username := username,
                        first_name := first_name, joined_at := now,
                        phone_number := none, total_messages := 0,
                        last_active := now }]

/-- UserManager.save_phone_number: update_one setting phone_number on the
matched document, without upsert, so a missing record makes it a no-op. -/
def save_phone_number (users : List UserRecord) (chat : Int) (phone : String) :
    List UserRecord :=
  updateFirst chat (fun u => { u with phone_number := some phone }) users

/-- One document of the chat_history collection. -/
structure ChatHistoryRecord where
  chat_id : Int
  user_message : String
  bot_response : String
  timestamp : Nat
deriving Repr, DecidableEq

/-- One document of the files collection. -/
structure FileRecord where
  chat_id : Int
  filename : String
  description : String
  timestamp : Nat
deriving Repr, DecidableEq

/-- The three MongoDB collections the bot writes. -/
structure DB where
  users : List UserRecord
  chat_history : List ChatHistoryRecord
  files : List FileRecord
deriving Repr, DecidableEq

/-- The single combined user update issued by ChatHistory.save_message: one
update_one carrying both an inc of total_messages and a set of last_active. -/
def incAndSetLastActive (now : Nat) (u : UserRecord) : UserRecord :=
  { u with total_messages := u.total_messages + 1, last_active := now }

/-- ChatHistory.save_message: insert one chat_history document, then issue the
one combined update on the users collection. -/
def save_message (db : DB) (chat : Int) (user_message bot_response : String)
    (now : Nat) : DB :=
  { db with
    chat_history := db.chat_history ++ [{ chat_id := chat,
                                          user_message := user_message,
                                          bot_response := bot_response,
                                          timestamp := now }],
    users := updateFirst chat (incAndSetLastActive now) db.users }

/-- handle_message, the generic free-text handler: call the generation API on
the text; on success save the exchange and reply with the response text; on
failure (the exception path) reply with the fixed apology and touch nothing. -/
def handle_message (db : DB) (chat : Int) (text : String)
    (gen : String → Option String) (now : Nat) : DB × String :=
  match gen text with
  | some resp => (save_message db chat text resp now, resp)
  | none => (db, "Sorry, I couldn\x27t process your message. Please try again.")

/-- handle_contact: when the message carries no contact, the body of the guard
is skipped entirely, so nothing is written and no reply of any kind is sent;
with a contact, the phone number is saved and a confirmation is sent. -/
def handle_contact (users : List UserRecord) (chat : Int)
    (contact : Option String) : List UserRecord × Option String :=
  match contact with
  | none => (users, none)
  | some phone =>
    (save_phone_number users chat phone,
     some "Thanks! You\x27re all set. Try asking me something or use /help to see all commands.")

theorem updateFirst_of_findUser_none (users : List UserRecord) (chat : Int)
    (f : UserRecord → UserRecord) (h : findUser users chat = none) :
    updateFirst chat f users = users := by
  induction users with
  | nil => rfl
  | cons u us ih =>
    cases hb : (u.chat_id == chat) with
    | true =>
      exfalso
      simp only [findUser, List.find?, hb] at h
      exact Option.noConfusion h
    | false =>
      simp only [findUser, List.find?, hb] at h
      simp only [updateFirst, hb, if_false, Bool.false_eq_true]
      exact congrArg (u :: ·) (ih h)

theorem findUser_updateFirst (users : List UserRecord) (chat : Int)
    (f : UserRecord → UserRecord) (hf : ∀ u, (f u).chat_id = u.chat_id) :
    findUser (updateFirst chat f users) chat = (findUser users chat).map f := by
  induction users with
  | nil => rfl
  | cons u us ih =>
    cases hb : (u.chat_id == chat) with
    | true =>
      have hb2 : ((f u).chat_id == chat) = true := by rw [hf u]; exact hb
      simp only [updateFirst, hb, if_true, findUser, List.find?, hb2]
      rfl
    | false =>
      simp only [updateFirst, hb, Bool.false_eq_true, if_false, findUser, List.find?, hb]
      exact ih

theorem findUser_append_single (users : List UserRecord) (chat : Int)
    (v : UserRecord) (h : findUser users chat = none) :
    findUser (users ++ [v]) chat = if v.chat_id == chat then some v else none := by
  induction users with
  | nil =>
    simp only [List.nil_append, findUser, List.find?]
    cases hb : (v.chat_id == chat) <;> simp [hb]
  | cons u us ih =>
    cases hb : (u.chat_id == chat) with
    | true =>
      exfalso
      simp only [findUser, List.find?, hb] at h
      exact Option.noConfusion h
    | false =>
      simp only [findUser, List.find?, hb] at h
      simp only [List.cons_append, findUser, List.find?, hb]
      exact ih h

/-- Claim C1: registering a chat_id that already has a UserRecord leaves the
users collection, and in particular every field of the existing record,
unchanged; moreover registering the same chat_id twice in a row always
produces the same store as registering it once (idempotent upsert). -/
theorem register_user_idempotent (users : List UserRecord) (chat : Int)
    (a b : Option String) (now : Nat) (u : UserRecord)
    (h : findUser users chat = some u) :
    register_user users chat a b now = users ∧
    findUser (register_user users chat a b now) chat = some u ∧
    ∀ (us : List UserRecord) (a1 b1 a2 b2 : Option String) (t1 t2 : Nat),
      register_user (register_user us chat a1 b1 t1) chat a2 b2 t2 =
        register_user us chat a1 b1 t1 := by
  refine ⟨?_, ?_, ?_⟩
  · simp [register_user, h]
  · simp [register_user, h]
  · intro us a1 b1 a2 b2 t1 t2
    cases hfind : findUser us chat with
    | some w =>
      simp [register_user, hfind]
    | none =>
      have hins := findUser_append_single us chat
        { chat_id := chat, username := a1, first_name := b1, joined_at := t1,
          phone_number := none, total_messages := 0, last_active := t1 } hfind
      simp only [beq_self_eq_true, if_true] at hins
      simp [register_user, hfind, hins]

/-- Claim C1 witness: registering chat 7 again on a store already holding a
record for chat 7 returns the store unchanged. -/
theorem register_user_idempotent_witness :
    register_user [UserRecord.mk 7 (some "ann") none 3 (some "555") 9 4] 7 none none 99 =
      [UserRecord.mk 7 (some "ann") none 3 (some "555") 9 4] :=
  (register_user_idempotent [UserRecord.mk 7 (some "ann") none 3 (some "555") 9 4]
    7 none none 99 (UserRecord.mk 7 (some "ann") none 3 (some "555") 9 4) rfl).1

/-- Claim C4: save_phone_number on a chat_id with no UserRecord leaves the
users collection exactly as it was; in particular it never inserts a record. -/
theorem save_phone_number_no_create (users : List UserRecord) (chat : Int)
    (phone : String) (h : findUser users chat = none) :
    save_phone_number users chat phone = users :=
  updateFirst_of_findUser_none users chat _ h

/-- Claim C4 witness: saving a phone number for the unknown chat 2 on a store
holding only chat 1 changes nothing. -/
theorem save_phone_number_no_create_witness :
    save_phone_number [UserRecord.mk 1 none none 0 none 0 0] 2 "555-0100" =
      [UserRecord.mk 1 none none 0 none 0 0] :=
  save_phone_number_no_create [UserRecord.mk 1 none none 0 none 0 0] 2 "555-0100" rfl

/-- Claim C9: when the generation API fails on a free-text message, the
handler leaves the whole database untouched (no chat-history insert, no
counter or last_active update) and replies with the fixed apology. -/
theorem handle_message_gen_failure (db : DB) (chat : Int) (text : String)
    (gen : String → Option String) (now : Nat) (h : gen text = none) :
    handle_message db chat text gen now =
      (db, "Sorry, I couldn\x27t process your message. Please try again.") := by
  simp [handle_message, h]

/-- Claim C9 witness: a failing generation call on an empty database replies
with the apology and leaves the database empty. -/
theorem handle_message_gen_failure_witness :
    handle_message (DB.mk [] [] []) 3 "hi" (fun _ => none) 5 =
      (DB.mk [] [] [],
       "Sorry, I couldn\x27t process your message. Please try again.") :=
  handle_message_gen_failure (DB.mk [] [] []) 3 "hi" (fun _ => none) 5 rfl

/-- Claim C10: a contact event carrying no contact performs no write to the
users collection and sends no reply at all. -/
theorem handle_contact_none_frame (users : List UserRecord) (chat : Int) :
    handle_contact users chat none = (users, none) := rfl

/-- One successful free-text exchange: the text sent, the generation response,
and the time at which the exchange was handled. -/
structure Exchange where
  text : String
  resp : String
  time : Nat
deriving Repr, DecidableEq

/-- A run of successive successful free-text exchanges for one chat, each one
going through the generic handler with a generation call that succeeds. -/
def runExchanges (db : DB) (chat : Int) (es : List Exchange) : DB :=
  es.foldl (fun d e => (handle_message d chat e.text (fun _ => some e.resp) e.time).1) db

theorem foldl_incAndSet (es : List Exchange) (u : UserRecord) :
    es.foldl (fun v e => incAndSetLastActive e.time v) u =
      { u with total_messages := u.total_messages + es.length,
               last_active := ((es.getLast?).map Exchange.time).getD u.last_active } := by
  induction es using List.reverseRecOn with
  | nil => simp
  | append_singleton l e ih =>
    rw [List.foldl_append, ih]
    simp [incAndSetLastActive, Nat.add_assoc]

theorem findUser_runExchanges (db : DB) (chat : Int) (es : List Exchange)
    (u : UserRecord) (h : findUser db.users chat = some u) :
    findUser (runExchanges db chat es).users chat =
      some (es.foldl (fun v e => incAndSetLastActive e.time v) u) := by
  induction es generalizing db u with
  | nil => simpa [runExchanges] using h
  | cons e es ih =>
    have hstep : findUser
        ((handle_message db chat e.text (fun _ => some e.resp) e.time).1).users chat
        = some (incAndSetLastActive e.time u) := by
      simp only [handle_message, save_message]
      rw [findUser_updateFirst db.users chat (incAndSetLastActive e.time) (fun v => rfl), h]
      rfl
    have h2 := ih ((handle_message db chat e.text (fun _ => some e.resp) e.time).1) _ hstep
    simpa [runExchanges] using h2

/-- Claim C2: starting from a freshly registered record (total_messages zero),
N successful free-text exchanges leave total_messages at N and last_active at
the timestamp of the final exchange; and every single exchange applies the
increment of total_messages and the set of last_active together, as the one
combined user update of save_message, never independently. -/
theorem runExchanges_counts (db : DB) (chat : Int) (u : UserRecord)
    (es : List Exchange) (hu : findUser db.users chat = some u)
    (h0 : u.total_messages = 0) :
    findUser (runExchanges db chat es).users chat =
      some { u with total_messages := es.length,
                    last_active := ((es.getLast?).map Exchange.time).getD u.last_active } ∧
    ∀ (d : DB) (m r : String) (t : Nat),
      findUser ((handle_message d chat m (fun _ => some r) t).1).users chat =
        (findUser d.users chat).map (incAndSetLastActive t) := by
  constructor
  · rw [findUser_runExchanges db chat es u hu, foldl_incAndSet, h0, Nat.zero_add]
  · intro d m r t
    simp only [handle_message, save_message]
    exact findUser_updateFirst d.users chat (incAndSetLastActive t) (fun v => rfl)

/-- Claim C2 witness: two successful exchanges on a fresh record for chat 5
leave total_messages at 2 and last_active at the second timestamp, 20. -/
theorem runExchanges_counts_witness :
    findUser (runExchanges (DB.mk [UserRecord.mk 5 none none 1 none 0 1] [] []) 5
        [Exchange.mk "hi" "hello" 10, Exchange.mk "more" "sure" 20]).users 5 =
      some (UserRecord.mk 5 none none 1 none 2 20) :=
  (runExchanges_counts (DB.mk [UserRecord.mk 5 none none 1 none 0 1] [] []) 5
    (UserRecord.mk 5 none none 1 none 0 1)
    [Exchange.mk "hi" "hello" 10, Exchange.mk "more" "sure" 20] rfl rfl).1

/-- The continuation recorded by register_next_step_handler after websearch. -/
inductive Step where
  | awaitSearchQuery
deriving Repr, DecidableEq

/-- Where the dispatcher sends a plain-text event. -/
inductive Route where
  | searchQuery
  | genericChat
deriving Repr, DecidableEq

/-- web_search_command: prompt for the query and register one next-step
continuation (perform_web_search) for this chat. -/
def web_search_command (pending : List (Int × Step)) (chat : Int) :
    List (Int × Step) :=
  pending ++ [(chat, Step.awaitSearchQuery)]

/-- Dispatch of a plain-text event: pending next-step continuations recorded
for the sender, if any, are removed and the message is treated as the input
of the recorded continuation, the search query; otherwise the generic chat
handler handle_message receives it. -/
def routeText (pending : List (Int × Step)) (chat : Int) :
    Route × List (Int × Step) :=
  match pending.find? (fun e => e.1 == chat) with
  | some _ => (Route.searchQuery, pending.filter (fun e => !(e.1 == chat)))
  | none => (Route.genericChat, pending)

/-- The number of pending next-step entries recorded for one chat. -/
def countPending (pending : List (Int × Step)) (chat : Int) : Nat :=
  (pending.filter (fun e => e.1 == chat)).length

theorem find?_append_of_none {α : Type} (p : α → Bool) (l m : List α)
    (h : l.find? p = none) : (l ++ m).find? p = m.find? p := by
  induction l with
  | nil => rfl
  | cons a l ih =>
    cases hb : p a with
    | true =>
      simp only [List.find?, hb] at h
      exact Option.noConfusion h
    | false =>
      simp only [List.find?, hb] at h
      simp only [List.cons_append, List.find?, hb]
      exact ih h

theorem find?_eq_none_of_countPending_zero (pending : List (Int × Step))
    (chat : Int) (h : countPending pending chat = 0) :
    pending.find? (fun e => e.1 == chat) = none := by
  rw [List.find?_eq_none]
  intro x hx hpx
  have hmem : x ∈ pending.filter (fun e => e.1 == chat) :=
    List.mem_filter.mpr ⟨hx, hpx⟩
  rw [List.length_eq_zero.mp h] at hmem
  exact (List.not_mem_nil x) hmem

/-- Claim C3: from a state with no pending entry for the chat, a websearch
command records exactly one pending entry for it; the next plain-text event
from that chat is routed to the search continuation and consumes the entry;
a second plain-text event is routed to the generic chat handler and leaves
the pending state untouched. -/
theorem websearch_pending_lifecycle (p : List (Int × Step)) (chat : Int)
    (h : countPending p chat = 0) :
    countPending (web_search_command p chat) chat = 1 ∧
    (routeText (web_search_command p chat) chat).1 = Route.searchQuery ∧
    countPending (routeText (web_search_command p chat) chat).2 chat = 0 ∧
    routeText ((routeText (web_search_command p chat) chat).2) chat =
      (Route.genericChat, (routeText (web_search_command p chat) chat).2) := by
  have hfilter : p.filter (fun e => e.1 == chat) = [] := List.length_eq_zero.mp h
  have hfind : p.find? (fun e => e.1 == chat) = none :=
    find?_eq_none_of_countPending_zero p chat h
  have hfind2 : (web_search_command p chat).find? (fun e => e.1 == chat) =
      some (chat, Step.awaitSearchQuery) := by
    rw [web_search_command, find?_append_of_none _ _ _ hfind]
    simp [List.find?]
  have hroute1 : routeText (web_search_command p chat) chat =
      (Route.searchQuery, (web_search_command p chat).filter (fun e => !(e.1 == chat))) := by
    simp [routeText, hfind2]
  have hcons : countPending
      ((web_search_command p chat).filter (fun e => !(e.1 == chat))) chat = 0 := by
    simp only [countPending]
    rw [List.length_eq_zero, List.filter_eq_nil_iff]
    intro x hx
    have hxne := (List.mem_filter.mp hx).2
    simp only [Bool.not_eq_eq_eq_not, Bool.not_true] at hxne
    simp [hxne]
  refine ⟨?_, ?_, ?_, ?_⟩
  · simp [countPending, web_search_command, List.filter_append, hfilter]
  · rw [hroute1]
  · rw [hroute1]
    exact hcons
  · rw [hroute1]
    have hfind3 := find?_eq_none_of_countPending_zero _ chat hcons
    simp [routeText, hfind3]

/-- Claim C3 witness: from an empty pending state and chat 0, the websearch
command, a first text event and a second text event behave as claimed. -/
theorem websearch_pending_lifecycle_witness :
    countPending (web_search_command [] 0) 0 = 1 ∧
    (routeText (web_search_command [] 0) 0).1 = Route.searchQuery ∧
    countPending (routeText (web_search_command [] 0) 0).2 0 = 0 ∧
    routeText ((routeText (web_search_command [] 0) 0).2) 0 =
      (Route.genericChat, (routeText (web_search_command [] 0) 0).2) :=
  websearch_pending_lifecycle [] 0 rfl

/-- The fixed reply of WebSearcher.search_and_summarize when no page content
could be fetched. -/
def nothingFoundMsg : String := "I couldn\x27t find any relevant information."

/-- The fixed reply of the outer exception path of search_and_summarize. -/
def searchFailMsg : String := "Sorry, I couldn\x27t perform the web search at this time."

/-- The outcome of one web search: the summary text, the link list returned
with it, and how many calls reached the generation API. -/
structure SearchResult where
  summary : String
  links : List String
  genCalls : Nat
deriving Repr, DecidableEq

/-- The fetch loop of search_and_summarize over the first three links: each
link is fetched (none models a fetch or parse failure, which the loop skips
with continue), the page text is truncated to its first 1000 characters, and
the successes are collected in order. -/
def summariesOf (links : List String) (fetch : String → Option String) :
    List String :=
  (links.take 3).filterMap (fun l => (fetch l).map (fun page => takeChars 1000 page))

/-- WebSearcher.search_and_summarize: search links come in as an argument; the
first three are fetched and truncated; with no summaries at all the fixed
nothing-found text is returned with the original links and no generation
call; otherwise one combined summarization prompt is submitted, a failure of
which is caught by the outer handler and turned into the fixed failure text
with an empty link list. -/
def search_and_summarize (query : String) (links : List String)
    (fetch : String → Option String) (gen : String → Option String) :
    SearchResult :=
  if (summariesOf links fetch).isEmpty then
    { summary := nothingFoundMsg, links := links, genCalls := 0 }
  else
    match gen ("Summarize these search results for \x27" ++ query ++ "\x27: " ++
        String.intercalate "\n" (summariesOf links fetch)) with
    | some text => { summary := text, links := links, genCalls := 1 }
    | none => { summary := searchFailMsg, links := [], genCalls := 1 }

/-- Claim C5: with 5 links from the provider and all 3 fetch attempts failing,
search_and_summarize returns the fixed nothing-found text paired with the
full 5-link list and performs no generation call; and whenever at least one
of the first three fetches succeeds, the per-link failures are skipped and
the search still reaches the single summarization call. -/
theorem search_all_fetches_fail (query : String) (links : List String)
    (fetch gen : String → Option String) (h5 : links.length = 5)
    (hfail : ∀ l ∈ links.take 3, fetch l = none) :
    search_and_summarize query links fetch gen =
      { summary := nothingFoundMsg, links := links, genCalls := 0 } ∧
    ∀ fetch2 : String → Option String, (∃ l ∈ links.take 3, (fetch2 l).isSome) →
      (search_and_summarize query links fetch2 gen).genCalls = 1 := by
  constructor
  · have hnil : summariesOf links fetch = [] := by
      rw [summariesOf, List.filterMap_eq_nil_iff]
      intro a ha
      rw [hfail a ha]
      rfl
    simp [search_and_summarize, hnil]
  · rintro fetch2 ⟨l, hl, hsome⟩
    obtain ⟨v, hv⟩ := Option.isSome_iff_exists.mp hsome
    have hmem : takeChars 1000 v ∈ summariesOf links fetch2 := by
      rw [summariesOf]
      exact List.mem_filterMap.mpr ⟨l, hl, by rw [hv]; rfl⟩
    have hne : summariesOf links fetch2 ≠ [] := List.ne_nil_of_mem hmem
    have hEmpty : (summariesOf links fetch2).isEmpty = false := by
      cases hh : (summariesOf links fetch2).isEmpty with
      | false => rfl
      | true => exact absurd (List.isEmpty_iff.mp hh) hne
    simp only [search_and_summarize, hEmpty, Bool.false_eq_true, if_false]
    cases gen ("Summarize these search results for \x27" ++ query ++ "\x27: " ++
        String.intercalate "\n" (summariesOf links fetch2)) <;> rfl

/-- Claim C5 witness: five links, every fetch failing, and an idle generation
API give the nothing-found reply with all five links and no generation call. -/
theorem search_all_fetches_fail_witness :
    search_and_summarize "lean" ["a", "b", "c", "d", "e"] (fun _ => none)
        (fun _ => none) =
      { summary := nothingFoundMsg, links := ["a", "b", "c", "d", "e"],
        genCalls := 0 } :=
  (search_all_fetches_fail "lean" ["a", "b", "c", "d", "e"] (fun _ => none)
    (fun _ => none) rfl (fun _ _ => rfl)).1

/-- The fixed apology of the exception path of FileAnalyzer.analyze_pdf. -/
def pdfApologyMsg : String := "Sorry, I couldn\x27t analyze this PDF. Please try again."

/-- The fixed text used by handle_document for anything that is not a PDF. -/
def unsupportedMsg : String := "Sorry, I can only analyze PDF documents at the moment."

/-- The outcome of one PDF analysis: the text returned to the caller and the
prompts that reached the generation API. -/
structure AnalyzeResult where
  text : String
  promptsSent : List String
deriving Repr, DecidableEq

/-- FileAnalyzer.analyze_pdf: fitz.open, modelled as an optional list of page
texts (none is an open or parse failure, caught into the fixed apology with
no API call); on success the page texts are concatenated in page order, cut
to the first 2000 characters, and submitted once behind the analysis
instruction; a generation failure is caught into the fixed apology. -/
def analyze_pdf (doc : Option (List String)) (gen : String → Option String) :
    AnalyzeResult :=
  match doc with
  | none => { text := pdfApologyMsg, promptsSent := [] }
  | some pages =>
    match gen ("Analyze this PDF content: " ++ takeChars 2000 (String.join pages)) with
    | some t =>
      { text := t,
        promptsSent := ["Analyze this PDF content: " ++ takeChars 2000 (String.join pages)] }
    | none =>
      { text := pdfApologyMsg,
        promptsSent := ["Analyze this PDF content: " ++ takeChars 2000 (String.join pages)] }

/-- The outcome of handle_document: the analysis text, the reply sent to the
user, the prompts that reached the generation API, and the description saved
as file metadata. -/
structure DocumentReply where
  analysis : String
  reply : String
  promptsSent : List String
  savedDescription : String
deriving Repr, DecidableEq

/-- handle_document: the temp file path is temp_ followed by the file name; a
path whose lower-cased form ends in .pdf goes to analyze_pdf, anything else
gets the fixed unsupported text with no API call; either way the metadata
keeps the first 100 characters and the reply puts the analysis after the
Document Analysis header. -/
def handle_document (fileName : String) (doc : Option (List String))
    (gen : String → Option String) : DocumentReply :=
  if endsWithString (lowerString ("temp_" ++ fileName)) ".pdf" then
    { analysis := (analyze_pdf doc gen).text,
      reply := "Document Analysis:\n\n" ++ (analyze_pdf doc gen).text,
      promptsSent := (analyze_pdf doc gen).promptsSent,
      savedDescription := takeChars 100 (analyze_pdf doc gen).text }
  else
    { analysis := unsupportedMsg,
      reply := "Document Analysis:\n\n" ++ unsupportedMsg,
      promptsSent := [],
      savedDescription := takeChars 100 unsupportedMsg }

/-- Claim C6 counterexample: for the non-PDF file notes.txt the reply text
sent back to the user is not the bare unsupported string, because the code
prefixes the Document Analysis header to it. -/
theorem handle_document_reply_not_bare_unsupported :
    (handle_document "notes.txt" none (fun _ => none)).reply ≠ unsupportedMsg := by
  decide

/-- Claim C6 (amended): for every inbound document whose file name does not
make the temp path end in .pdf after lower-casing, the analysis result is
the fixed unsupported string, zero prompts reach the generation API, and the
reply embeds that unsupported string after the Document Analysis header. -/
theorem handle_document_non_pdf (fileName : String) (doc : Option (List String))
    (gen : String → Option String)
    (h : endsWithString (lowerString ("temp_" ++ fileName)) ".pdf" = false) :
    (handle_document fileName doc gen).analysis = unsupportedMsg ∧
    (handle_document fileName doc gen).promptsSent = [] ∧
    (handle_document fileName doc gen).reply =
      "Document Analysis:\n\n" ++ unsupportedMsg := by
  refine ⟨?_, ?_, ?_⟩ <;> simp [handle_document, h]

/-- Claim C6 witness: the non-PDF file notes.txt yields the unsupported
analysis, no generation call, and the header-prefixed reply. -/
theorem handle_document_non_pdf_witness :
    (handle_document "notes.txt" none (fun _ => none)).analysis = unsupportedMsg ∧
    (handle_document "notes.txt" none (fun _ => none)).promptsSent = [] ∧
    (handle_document "notes.txt" none (fun _ => none)).reply =
      "Document Analysis:\n\n" ++ unsupportedMsg :=
  handle_document_non_pdf "notes.txt" none (fun _ => none) (by decide)

/-- Claim C7: on a PDF that opens as a list of page texts, analyze_pdf submits
exactly one prompt, the analysis instruction followed by the page texts
concatenated in page order and truncated to their first 2000 characters; the
truncation is a hard character-level cutoff, never longer than 2000. -/
theorem analyze_pdf_prompt (pages : List String) (gen : String → Option String) :
    (analyze_pdf (some pages) gen).promptsSent =
      ["Analyze this PDF content: " ++ takeChars 2000 (String.join pages)] ∧
    (takeChars 2000 (String.join pages)).data = (String.join pages).data.take 2000 ∧
    (takeChars 2000 (String.join pages)).length ≤ 2000 := by
  refine ⟨?_, rfl, ?_⟩
  · simp only [analyze_pdf]
    cases gen ("Analyze this PDF content: " ++ takeChars 2000 (String.join pages)) <;> rfl
  · have hlen : (takeChars 2000 (String.join pages)).length =
        ((String.join pages).data.take 2000).length := rfl
    rw [hlen, List.length_take]
    omega

/-- The decoded form of an image, as produced by Image.open. -/
structure ImageData where
  bytes : List Nat
deriving Repr, DecidableEq

/-- The fixed apology of the exception path of FileAnalyzer.analyze_image. -/
def imageApologyMsg : String := "Sorry, I couldn\x27t analyze this image. Please try again."

/-- FileAnalyzer.analyze_image: Image.open, modelled as an optional decoded
image (none is a decode failure), then the vision model on the bare image
with no extra prompt (none is an API failure); every failure is caught into
the fixed apology, so the caller always receives a string. -/
def analyze_image (decoded : Option ImageData)
    (vision : ImageData → Option String) : String :=
  match decoded with
  | none => imageApologyMsg
  | some img =>
    match vision img with
    | some t => t
    | none => imageApologyMsg

/-- Claim C8: analyze_image is a total function of the decode and vision
outcomes: any decode failure or vision-API failure yields the fixed apology,
and a successful decode followed by a successful vision call yields exactly
the response text, so no exception ever reaches the caller. -/
theorem analyze_image_no_throw (decoded : Option ImageData)
    (vision : ImageData → Option String) :
    ((decoded = none ∨ ∃ img, decoded = some img ∧ vision img = none) →
      analyze_image decoded vision = imageApologyMsg) ∧
    ∀ img t, decoded = some img → vision img = some t →
      analyze_image decoded vision = t := by
  constructor
  · rintro (hd | ⟨img, hd, hv⟩)
    · rw [hd]
      rfl
    · rw [hd]
      simp [analyze_image, hv]
  · intro img t hd hv
    rw [hd]
    simp [analyze_image, hv]

/-- Claim C8 witness: a failing decode yields the fixed apology. -/
theorem analyze_image_no_throw_witness :
    analyze_image none (fun _ => none) = imageApologyMsg :=
  (analyze_image_no_throw none (fun _ => none)).1 (Or.inl rfl)
